import Mathlib

/-!
Shallow embedding of the task preparation / submission / reconciliation code in
`api/batch_processing/data_preparation/prepare_api_submission.py` and
`api/batch_processing/data_preparation/manage_api_submission.py` of the
weecology/CameraTraps repository.

Modelling conventions:
* external I/O (HTTP fetches, file reads) is modelled by passing the fetched
  or read content as explicit parameters;
* the externally supplied classifiers from the `ai4eutils` library
  (`path_utils.is_image_file`, `path_utils.find_image_strings`) are modelled
  as `String → Bool` parameters;
* Python exceptions are modelled with `Option` / `Except`;
* Python machine-level details (floor division `//`, list slicing, `sorted`,
  `set` difference) are embedded with their exact Python semantics.
-/

namespace CameraTraps

/-- Constant `MAX_FILES_PER_API_TASK = 1_000_000` from prepare_api_submission.py. -/
def MAX_FILES_PER_API_TASK : Nat := 1000000

/-- Constant `IMAGES_PER_SHARD = 2000` from prepare_api_submission.py. -/
def IMAGES_PER_SHARD : Nat := 2000

/-- Constant `REQUEST_NAME_CHAR_LIMIT = 92` from prepare_api_submission.py. -/
def REQUEST_NAME_CHAR_LIMIT : Nat := 92

/-- Constant `VALID_REQUEST_NAME_CHARS = f'-_\x7bstring.ascii_letters\x7d\x7bstring.digits\x7d'`
from prepare_api_submission.py, as the list of its characters. -/
def VALID_REQUEST_NAME_CHARS : List Char :=
  "-_abcdefghijklmnopqrstuvwxyzABCDEFGHIJKLMNOPQRSTUVWXYZ0123456789".toList

/-- Modelled from the spec: `path_utils.clean_filename` comes from the external
`ai4eutils` dependency and is not part of this repository; per the spec it
"keeps only characters in a fixed allowed set" and "truncates to a fixed
maximum length". -/
def clean_filename (filename : String) (whitelist : List Char)
    (char_limit : Nat) : String :=
  ⟨(filename.toList.filter (fun c => decide (c ∈ whitelist))).take char_limit⟩

/-- Embedding of `clean_request_name` (prepare_api_submission.py, lines 356-361):
delegates to `clean_filename` with the request-name whitelist and length limit. -/
def clean_request_name (request_name : String) : String :=
  clean_filename request_name VALID_REQUEST_NAME_CHARS REQUEST_NAME_CHAR_LIMIT

/-- Embedding of the `TaskStatus` string enum from prepare_api_submission.py. -/
inductive TaskStatus where
  | running
  | failed
  | problem
  | completed
deriving DecidableEq

/-- The `Task` entity of prepare_api_submission.py. Instance attributes that
Python assigns only on some code paths are `Option`-valued. -/
structure Task where
  name : String
  local_images_list_path : Option String := none
  remote_images_list_url : Option String := none
  id : Option String := none
deriving DecidableEq

/-- Embedding of `Task.__init__` (prepare_api_submission.py, lines 85-122).
The JSON list behind `images_list_path` is passed explicitly as `images_list`
(the file read / URL fetch is external I/O); `is_image_file` stands for the
external classifier `path_utils.is_image_file`. A raised `ValueError` is
modelled as `Except.error` carrying the exception message. -/
def Task.init (name : String) (images_list_path : String)
    (images_list : List String) (isLocal validate : Bool)
    (is_image_file : String → Bool) : Except String Task :=
  let clean_name := clean_request_name name
  let t : Task :=
    { name := clean_name
      local_images_list_path := if isLocal then some images_list_path else none
      remote_images_list_url := if isLocal then none else some images_list_path }
  if validate then
    if images_list.length > MAX_FILES_PER_API_TASK then
      Except.error "images list has too many files"
    else
      match images_list.find? (fun p => !(is_image_file p)) with
      | some p => Except.error (p ++ " is not an image")
      | none => Except.ok t
  else Except.ok t

/-- The parsed JSON body of the submission response. An absent key is `none`;
`Task.submit` only ever inspects the `error` and `request_id` keys. -/
structure SubmitResponse where
  error : Option String := none
  request_id : Option String := none
deriving DecidableEq

/-- Python `repr` of the parsed response dict, as interpolated into the
`BatchAPISubmissionError` message by `Task.submit` via
`f'"request_id" not in API response: \x7bresponse\x7d'`. -/
def SubmitResponse.pyRepr (r : SubmitResponse) : String :=
  let q : String := "\x27"
  let fields :=
    (match r.error with
     | some e => [q ++ "error" ++ q ++ ": " ++ q ++ e ++ q]
     | none => []) ++
    (match r.request_id with
     | some i => [q ++ "request_id" ++ q ++ ": " ++ q ++ i ++ q]
     | none => [])
  "\x7b" ++ String.intercalate ", " fields ++ "\x7d"

/-- The exceptions `Task.submit` can raise: `requests.HTTPError` (from
`raise_for_status`), the `assert r.status_code == requests.codes.ok`, and
`BatchAPISubmissionError` carrying a message string. The source defines the
single exception class `BatchAPISubmissionError(Exception)` for both
rejection cases. -/
inductive SubmitError where
  | httpError (status_code : Nat)
  | assertionError
  | batchAPISubmissionError (msg : String)
deriving DecidableEq

/-- Embedding of `Task.submit` (prepare_api_submission.py, lines 210-235).
The HTTP POST is modelled by its observed status code and parsed JSON body.
Returns the post-call task state together with the outcome: `self.id` is
assigned only on the success path, after both response checks. -/
def Task.submit (t : Task) (status_code : Nat) (resp : SubmitResponse) :
    Task × Except SubmitError String :=
  if 400 ≤ status_code then
    (t, Except.error (SubmitError.httpError status_code))
  else if status_code ≠ 200 then
    (t, Except.error SubmitError.assertionError)
  else
    match resp.error with
    | some e => (t, Except.error (SubmitError.batchAPISubmissionError e))
    | none =>
      match resp.request_id with
      | none =>
        (t, Except.error (SubmitError.batchAPISubmissionError
          ("\"request_id\" not in API response: " ++ resp.pyRepr)))
      | some rid => ({ t with id := some rid }, Except.ok rid)

/-- One entry of `detections['images']`: only the `file` key is read. -/
structure Detection where
  file : String
deriving DecidableEq

/-- The parts of `self.response['Status']['message']` that
`Task.get_missing_images` reads, with the three `output_file_urls` JSON
documents already fetched. -/
structure StatusMessage where
  num_failed_shards : Nat := 0
  submitted_images : List String := []
  detections_images : List Detection := []
  failed_images : List String := []
deriving DecidableEq

/-- Lexicographic code-point comparison of character lists, the order Python
uses to compare strings. -/
def pyCharListLe : List Char → List Char → Bool
  | [], _ => true
  | _ :: _, [] => false
  | a :: as, b :: bs =>
    if a < b then true
    else if b < a then false
    else pyCharListLe as bs

/-- Python string comparison `a <= b` (lexicographic by code point). -/
def pyStrLe (a b : String) : Bool := pyCharListLe a.toList b.toList

/-- Embedding of Python `sorted(set(a) - set(b))` for string lists: the
distinct elements of `a` that are not in `b`, in ascending order. -/
def pySortedSetDiff (a b : List String) : List String :=
  List.insertionSort (fun x y => pyStrLe x y = true)
    ((a.filter (fun x => decide (x ∉ b))).dedup)

/-- Embedding of `Task.get_missing_images` (prepare_api_submission.py, lines
256-303). `find_image_strings` stands for `path_utils.find_image_strings`
(truthiness of its return value). A failed `assert` is modelled as `none`;
on success the sorted missing-image list is returned. -/
def get_missing_images (status : TaskStatus) (find_image_strings : String → Bool)
    (msg : StatusMessage) : Option (List String) :=
  if status = TaskStatus.completed then
    if msg.submitted_images.all find_image_strings then
      if msg.failed_images.all find_image_strings then
        if msg.failed_images.all (fun f => decide (f ∈
            pySortedSetDiff msg.submitted_images
              (msg.detections_images.map Detection.file))) then
          some (pySortedSetDiff msg.submitted_images
            (msg.detections_images.map Detection.file))
        else none
      else none
    else none
  else none

/-- Python slice-bound normalization: the start/stop index `i` of `l[a:b]`
for a list of length `len` (negative indices count from the end, results are
clamped to `[0, len]`). -/
def pySliceBound (len : Nat) (i : Int) : Nat :=
  if i < 0 then ((len : Int) + i).toNat else min i.toNat len

/-- Python list slice `l[a:b]`. -/
def pySlice {α : Type} (l : List α) (a b : Int) : List α :=
  let s := pySliceBound l.length a
  let e := pySliceBound l.length b
  (l.drop s).take (e - s)

/-- Embedding of `divide_chunks` (prepare_api_submission.py, lines 308-315):
`[l[i * n:(i + 1) * n] for i in range((len(l) + n - 1) // n)]` with Python
floor division (`Int.fdiv`) and slice semantics. `n = 0` raises
`ZeroDivisionError`, modelled as `none`. -/
def divide_chunks {α : Type} (l : List α) (n : Int) : Option (List (List α)) :=
  if n = 0 then none
  else
    some ((List.range ((((l.length : Int) + n - 1).fdiv n).toNat)).map
      (fun (i : Nat) => pySlice l ((i : Int) * n) (((i : Int) + 1) * n)))

/-- Module-level constant `max_tolerable_missing_images = 20` from
manage_api_submission.py ("Turn warnings into errors if more than this many
images are missing"). -/
def max_tolerable_missing_images : Nat := 20

/-- The two `assert`s of the per-taskgroup combine-results loop, as error
values. -/
inductive AggregationError where
  | tooManyMissing
  | extraImages
deriving DecidableEq

/-- `missing_images` of the combine-results loop (manage_api_submission.py,
lines 447-459): `path_utils.find_image_strings(requested_set - result_set)`,
with `find_image_strings` modelled as the predicate `fi`. -/
def missing_images_of (fi : String → Bool) (requested : List String)
    (results : List Detection) : List String :=
  ((requested.dedup).filter
    (fun x => decide (x ∉ results.map Detection.file))).filter fi

/-- Embedding of the cross-check at the end of the combine-results loop
(manage_api_submission.py, lines 447-464): a warning is printed when any
image is missing, then `assert len(missing_images) < max_tolerable_missing_images`
(hard failure), then `extra_images = result_images_set - requested_images_set`
and `assert len(extra_images) == 0` (hard failure). `requested` is the
taskgroup's requested file list, `results` the combined output's images. -/
def taskgroup_aggregation_check (fi : String → Bool) (tol : Nat)
    (requested : List String) (results : List Detection) :
    Except AggregationError (List String) :=
  if (missing_images_of fi requested results).length < tol then
    if ((results.map Detection.file).dedup.filter
        (fun x => decide (x ∉ requested))).length = 0 then
      Except.ok (missing_images_of fi requested results)
    else Except.error AggregationError.extraImages
  else Except.error AggregationError.tooManyMissing

/-! Helper lemmas. -/

/-- Characters surviving `clean_filename` all come from the whitelist. -/
theorem mem_clean_filename {s : String} {wl : List Char} {k : Nat} {c : Char}
    (hc : c ∈ (clean_filename s wl k).toList) : c ∈ wl := by
  have h2 := List.mem_of_mem_take hc
  have h3 := (List.mem_filter.mp h2).2
  simpa using h3

/-- Membership in the Python `sorted(set(a) - set(b))` embedding. -/
theorem mem_pySortedSetDiff {a b : List String} {x : String} :
    x ∈ pySortedSetDiff a b ↔ x ∈ a ∧ x ∉ b := by
  unfold pySortedSetDiff
  rw [(List.perm_insertionSort _ _).mem_iff, List.mem_dedup, List.mem_filter]
  simp

/-- C8: for every input string, name sanitization terminates (it is a total
function), returns a possibly empty string containing only characters from
the allowed set (ASCII letters, digits, hyphen, underscore), of length at
most `REQUEST_NAME_CHAR_LIMIT = 92`, and is idempotent. -/
theorem clean_request_name_sound (s : String) :
    (clean_request_name s).length ≤ REQUEST_NAME_CHAR_LIMIT ∧
    (∀ c ∈ (clean_request_name s).toList, c ∈ VALID_REQUEST_NAME_CHARS) ∧
    clean_request_name (clean_request_name s) = clean_request_name s := by
  refine ⟨?_, fun c hc => mem_clean_filename hc, ?_⟩
  · show ((s.toList.filter _).take _).length ≤ _
    rw [List.length_take]
    exact min_le_left _ _
  · show (⟨_⟩ : String) = ⟨_⟩
    congr 1
    show (((s.toList.filter _).take REQUEST_NAME_CHAR_LIMIT).filter _).take
        REQUEST_NAME_CHAR_LIMIT = (s.toList.filter _).take REQUEST_NAME_CHAR_LIMIT
    rw [List.filter_eq_self.mpr, List.take_take, Nat.min_self]
    intro c hc
    exact (List.mem_filter.mp (List.mem_of_mem_take hc)).2

/-- C9 counterexample: with chunk size `-1` (which is `≤ 0`) and input
`["a"]`, `divide_chunks` does not fail: Python floor division gives
`(1 - 1 - 1) // -1 = 1`, so one slice `l[0:-1] = []` is produced and the
function returns `[[]]`. -/
theorem divide_chunks_negative_counterexample :
    divide_chunks ["a"] (-1) = some [[]] ∧ (-1 : Int) ≤ 0 := by
  exact ⟨by decide, by decide⟩

/-- C9 amended: `divide_chunks` fails (raises `ZeroDivisionError`) exactly
when the chunk size is zero; for any nonzero chunk size, negative sizes
included, it returns a (for negative sizes generally meaningless, possibly
empty) list of chunks instead of failing. -/
theorem divide_chunks_none_iff_zero {α : Type} (l : List α) (n : Int) :
    divide_chunks l n = none ↔ n = 0 := by
  unfold divide_chunks
  split <;> simp_all

/-- `Task.submit` either raises, leaving the task untouched, or succeeds,
storing the returned identifier. -/
theorem submit_cases (t : Task) (code : Nat) (resp : SubmitResponse) :
    (∃ e, Task.submit t code resp = (t, Except.error e)) ∨
    (∃ rid, resp.error = none ∧ resp.request_id = some rid ∧
      Task.submit t code resp = ({ t with id := some rid }, Except.ok rid)) := by
  unfold Task.submit
  split
  · exact Or.inl ⟨_, rfl⟩
  · split
    · exact Or.inl ⟨_, rfl⟩
    · cases he : resp.error with
      | some e => exact Or.inl ⟨_, rfl⟩
      | none =>
        cases hr : resp.request_id with
        | none => exact Or.inl ⟨_, rfl⟩
        | some rid => exact Or.inr ⟨rid, rfl, rfl, rfl⟩

/-- C6 counterexample: the error-payload case and the missing-`request_id`
case both raise the single exception class `BatchAPISubmissionError`; they
are not two distinct `SubmissionError` kinds. At these two concrete
responses — one a well-formed error payload, the other a payload with no
`request_id` key — `Task.submit` raises literally identical exceptions. -/
theorem submit_error_kinds_coincide_counterexample :
    (Task.submit { name := "t" } 200
        { error := some "\"request_id\" not in API response: \x7b\x7d" }).2 =
      (Task.submit { name := "t" } 200 {}).2 ∧
    (Task.submit { name := "t" } 200 {}).2 =
      Except.error (SubmitError.batchAPISubmissionError
        "\"request_id\" not in API response: \x7b\x7d") :=
  ⟨rfl, rfl⟩

/-- C6 amended: on an HTTP-level failure `submit` raises `HTTPError`; on a
well-formed error payload it raises `BatchAPISubmissionError` carrying the
server-provided message; on a response lacking `request_id` it raises the
same exception class `BatchAPISubmissionError` (distinguished only by its
diagnostic message, not a distinct kind); otherwise it stores the returned
identifier on the task and returns it. -/
theorem submit_behavior (t : Task) (resp : SubmitResponse) :
    (∀ m, resp.error = some m →
      Task.submit t 200 resp =
        (t, Except.error (SubmitError.batchAPISubmissionError m))) ∧
    (resp.error = none → resp.request_id = none →
      Task.submit t 200 resp =
        (t, Except.error (SubmitError.batchAPISubmissionError
          ("\"request_id\" not in API response: " ++ resp.pyRepr)))) ∧
    (∀ rid, resp.error = none → resp.request_id = some rid →
      Task.submit t 200 resp = ({ t with id := some rid }, Except.ok rid)) ∧
    (∀ code, 400 ≤ code →
      Task.submit t code resp =
        (t, Except.error (SubmitError.httpError code))) := by
  refine ⟨?_, ?_, ?_, ?_⟩
  · intro m hm
    unfold Task.submit
    rw [if_neg (by omega), if_neg (by omega), hm]
  · intro he hr
    unfold Task.submit
    rw [if_neg (by omega), if_neg (by omega), he, hr]
  · intro rid he hr
    unfold Task.submit
    rw [if_neg (by omega), if_neg (by omega), he, hr]
  · intro code hc
    unfold Task.submit
    rw [if_pos hc]

/-- C6 witness: concrete instances of the amended behavior. -/
theorem submit_behavior_witness :
    Task.submit { name := "t" } 200 { error := some "boom" } =
      ({ name := "t" }, Except.error
        (SubmitError.batchAPISubmissionError "boom")) ∧
    Task.submit { name := "t" } 200 { request_id := some "123" } =
      (({ name := "t", id := some "123" } : Task), Except.ok "123") :=
  ⟨(submit_behavior { name := "t" } _).1 "boom" rfl,
   (submit_behavior { name := "t" } _).2.2.1 "123" rfl rfl⟩

/-- C10: whenever `submit` raises — HTTP error, error payload, or missing
`request_id` — the task's `id` attribute is not assigned (the task is
unchanged from its pre-call unsubmitted state), and for a task that starts
unsubmitted, `id` ends up set if and only if `submit` returns successfully. -/
theorem submit_id_iff_success (t : Task) (code : Nat) (resp : SubmitResponse)
    (h : t.id = none) :
    ((∃ e, (Task.submit t code resp).2 = Except.error e) →
      (Task.submit t code resp).1 = t) ∧
    (∀ rid, (Task.submit t code resp).2 = Except.ok rid →
      (Task.submit t code resp).1.id = some rid) ∧
    ((Task.submit t code resp).1.id ≠ none ↔
      ∃ rid, (Task.submit t code resp).2 = Except.ok rid) := by
  rcases submit_cases t code resp with ⟨e, he⟩ | ⟨rid, _, _, hr⟩
  · rw [he]
    refine ⟨fun _ => rfl, ?_, ?_⟩
    · intro rid h2
      simp at h2
    · simp [h]
  · rw [hr]
    refine ⟨?_, ?_, ?_⟩
    · rintro ⟨e, he2⟩
      simp at he2
    · intro rid2 h2
      simp at h2
      simp [h2]
    · simp

/-- C10 witness: a fresh task, a successful submission. -/
theorem submit_id_iff_success_witness :
    ({ name := "t" } : Task).id = none ∧
    ((Task.submit { name := "t" } 200 { request_id := some "1" }).1.id ≠ none ↔
      ∃ rid, (Task.submit { name := "t" } 200
        { request_id := some "1" }).2 = Except.ok rid) :=
  ⟨rfl, (submit_id_iff_success { name := "t" } 200
    { request_id := some "1" } rfl).2.2⟩

/-- C7: `Task.__init__` with `validate=True` rejects an images list of size
`MAX_FILES_PER_API_TASK + 1` with a `ValueError`, accepts one of size exactly
`MAX_FILES_PER_API_TASK` (whose entries all pass the image classifier), and
rejects any list containing an entry the classifier refuses. -/
theorem task_init_validation (is_image_file : String → Bool)
    (name path : String) (l : List String) :
    (l.length = MAX_FILES_PER_API_TASK + 1 →
      ∃ m, Task.init name path l true true is_image_file = Except.error m) ∧
    (l.length = MAX_FILES_PER_API_TASK → l.all is_image_file = true →
      ∃ t, Task.init name path l true true is_image_file = Except.ok t) ∧
    ((∃ p ∈ l, is_image_file p = false) →
      ∃ m, Task.init name path l true true is_image_file = Except.error m) := by
  refine ⟨?_, ?_, ?_⟩
  · intro hl
    refine ⟨"images list has too many files", ?_⟩
    unfold Task.init
    rw [if_pos rfl, if_pos (by rw [hl]; omega)]
  · intro hl hall
    have hnone : l.find? (fun p => !(is_image_file p)) = none := by
      rw [List.find?_eq_none]
      intro x hx
      simp [List.all_eq_true.mp hall x hx]
    refine ⟨{ name := clean_request_name name,
              local_images_list_path := some path }, ?_⟩
    unfold Task.init
    rw [if_pos rfl, if_neg (by omega), hnone]
    rfl
  · rintro ⟨p, hp, hfp⟩
    unfold Task.init
    rw [if_pos rfl]
    by_cases hlen : l.length > MAX_FILES_PER_API_TASK
    · rw [if_pos hlen]
      exact ⟨_, rfl⟩
    · rw [if_neg hlen]
      have hsome : (l.find? (fun q => !(is_image_file q))).isSome := by
        rw [List.find?_isSome]
        exact ⟨p, hp, by simp [hfp]⟩
      rcases Option.isSome_iff_exists.mp hsome with ⟨y, hy⟩
      rw [hy]
      exact ⟨_, rfl⟩

/-- C7 witness: the boundary sizes `MAX_FILES_PER_API_TASK + 1` (rejected),
`MAX_FILES_PER_API_TASK` (accepted), and a list with a non-image entry
(rejected). -/
theorem task_init_validation_witness :
    (∃ m, Task.init "req" "list.json"
      (List.replicate (MAX_FILES_PER_API_TASK + 1) "a.jpg") true true
      (fun s => decide (s = "a.jpg")) = Except.error m) ∧
    (∃ t, Task.init "req" "list.json"
      (List.replicate MAX_FILES_PER_API_TASK "a.jpg") true true
      (fun s => decide (s = "a.jpg")) = Except.ok t) ∧
    (∃ m, Task.init "req" "list.json" ["b.txt"] true true
      (fun s => decide (s = "a.jpg")) = Except.error m) :=
  ⟨(task_init_validation _ "req" "list.json" _).1 (List.length_replicate _ _),
   (task_init_validation _ "req" "list.json" _).2.1 (List.length_replicate _ _)
     (by rw [List.all_eq_true]; intro x hx; simp_all [List.mem_replicate]),
   (task_init_validation _ "req" "list.json" _).2.2 ⟨"b.txt", by simp, by decide⟩⟩

/-- When the three preliminary checks pass and the failed set is contained in
the computed diff, `get_missing_images` returns the sorted set difference. -/
theorem get_missing_images_run (fi : String → Bool) (msg : StatusMessage)
    (h1 : msg.submitted_images.all fi = true)
    (h2 : msg.failed_images.all fi = true)
    (h3 : ∀ f ∈ msg.failed_images,
      f ∈ msg.submitted_images ∧ f ∉ msg.detections_images.map Detection.file) :
    get_missing_images TaskStatus.completed fi msg =
      some (pySortedSetDiff msg.submitted_images
        (msg.detections_images.map Detection.file)) := by
  have hsub : msg.failed_images.all (fun f => decide (f ∈
      pySortedSetDiff msg.submitted_images
        (msg.detections_images.map Detection.file))) = true := by
    rw [List.all_eq_true]
    intro f hf
    simpa [mem_pySortedSetDiff] using h3 f hf
  unfold get_missing_images
  rw [if_pos rfl, if_pos h1, if_pos h2, if_pos hsub]

/-- C2: for a completed task whose status payload resolves to submitted,
produced and explicitly-failed lists (all passing the image-string checks,
with the failed list inside the diff so that no subset-invariant violation is
raised), `get_missing_images` returns exactly the set difference
submitted − produced. -/
theorem get_missing_images_set_difference (fi : String → Bool)
    (msg : StatusMessage)
    (h1 : msg.submitted_images.all fi = true)
    (h2 : msg.failed_images.all fi = true)
    (h3 : ∀ f ∈ msg.failed_images,
      f ∈ msg.submitted_images ∧ f ∉ msg.detections_images.map Detection.file) :
    ∃ m, get_missing_images TaskStatus.completed fi msg = some m ∧
      ∀ x, x ∈ m ↔ (x ∈ msg.submitted_images ∧
        x ∉ msg.detections_images.map Detection.file) :=
  ⟨_, get_missing_images_run fi msg h1 h2 h3, fun _ => mem_pySortedSetDiff⟩

/-- C2 witness: submitted `\x7ba,b,c,d\x7d`, produced `\x7ba,c\x7d`,
explicitly failed `\x7bd\x7d`: the result is exactly `["b", "d"]` and no
subset-invariant violation is raised. -/
theorem get_missing_images_set_difference_witness :
    (∃ m, get_missing_images TaskStatus.completed (fun _ => true)
        { submitted_images := ["a", "b", "c", "d"],
          detections_images := [⟨"a"⟩, ⟨"c"⟩],
          failed_images := ["d"] } = some m ∧
      ∀ x, x ∈ m ↔ (x ∈ ["a", "b", "c", "d"] ∧
        x ∉ ([⟨"a"⟩, ⟨"c"⟩] : List Detection).map Detection.file)) ∧
    get_missing_images TaskStatus.completed (fun _ => true)
      { submitted_images := ["a", "b", "c", "d"],
        detections_images := [⟨"a"⟩, ⟨"c"⟩],
        failed_images := ["d"] } = some ["b", "d"] :=
  ⟨get_missing_images_set_difference (fun _ => true)
    { submitted_images := ["a", "b", "c", "d"],
      detections_images := [⟨"a"⟩, ⟨"c"⟩],
      failed_images := ["d"] } rfl rfl (by decide), by decide⟩

/-- C5: if the explicitly-failed set is not a subset of the computed missing
set (submitted − produced), `get_missing_images` surfaces the violation (the
`assert` fails) instead of silently ignoring it; when the subset relation
holds, no such failure is raised and a result is returned. -/
theorem get_missing_images_subset_invariant (fi : String → Bool)
    (msg : StatusMessage)
    (h1 : msg.submitted_images.all fi = true)
    (h2 : msg.failed_images.all fi = true) :
    ((¬ ∀ f ∈ msg.failed_images, f ∈ msg.submitted_images ∧
        f ∉ msg.detections_images.map Detection.file) →
      get_missing_images TaskStatus.completed fi msg = none) ∧
    ((∀ f ∈ msg.failed_images, f ∈ msg.submitted_images ∧
        f ∉ msg.detections_images.map Detection.file) →
      ∃ m, get_missing_images TaskStatus.completed fi msg = some m) := by
  constructor
  · intro hviol
    have hsub : msg.failed_images.all (fun f => decide (f ∈
        pySortedSetDiff msg.submitted_images
          (msg.detections_images.map Detection.file))) = false := by
      by_contra hne
      have hall := eq_true_of_ne_false hne
      exact hviol (fun f hf =>
        mem_pySortedSetDiff.mp (by simpa using List.all_eq_true.mp hall f hf))
    unfold get_missing_images
    rw [if_pos rfl, if_pos h1, if_pos h2, if_neg (by simp [hsub])]
  · intro hgood
    exact ⟨_, get_missing_images_run fi msg h1 h2 hgood⟩

/-- C5 witness: explicitly failed `\x7be\x7d` with `e` not among the
submitted items violates the subset invariant and fails; the well-behaved
instance from the spec succeeds. -/
theorem get_missing_images_subset_invariant_witness :
    get_missing_images TaskStatus.completed (fun _ => true)
      { submitted_images := ["a", "b", "c", "d"],
        detections_images := [⟨"a"⟩, ⟨"c"⟩],
        failed_images := ["e"] } = none ∧
    (∃ m, get_missing_images TaskStatus.completed (fun _ => true)
      { submitted_images := ["a", "b", "c", "d"],
        detections_images := [⟨"a"⟩, ⟨"c"⟩],
        failed_images := ["d"] } = some m) :=
  ⟨(get_missing_images_subset_invariant (fun _ => true)
      { submitted_images := ["a", "b", "c", "d"],
        detections_images := [⟨"a"⟩, ⟨"c"⟩],
        failed_images := ["e"] } rfl rfl).1 (by decide),
   (get_missing_images_subset_invariant (fun _ => true)
      { submitted_images := ["a", "b", "c", "d"],
        detections_images := [⟨"a"⟩, ⟨"c"⟩],
        failed_images := ["d"] } rfl rfl).2 (by decide)⟩

/-- A result item outside the requested set makes the `extra_images` filter
nonempty. -/
theorem extra_images_nonempty {requested : List String}
    {results : List Detection} (hex : ∃ d ∈ results, d.file ∉ requested) :
    ((results.map Detection.file).dedup.filter
      (fun x => decide (x ∉ requested))).length ≠ 0 := by
  rcases hex with ⟨d, hd, hnot⟩
  intro hlen
  rw [List.length_eq_zero] at hlen
  have hmem : d.file ∈ (results.map Detection.file).dedup.filter
      (fun x => decide (x ∉ requested)) := by
    rw [List.mem_filter, List.mem_dedup]
    exact ⟨List.mem_map_of_mem _ hd, by simpa using hnot⟩
  rw [hlen] at hmem
  exact List.not_mem_nil _ hmem

/-- C3 counterexample: with the module's tolerance
`max_tolerable_missing_images = 20` and a taskgroup whose combined output is
missing 20 requested images, the count reaches the threshold and the
aggregation step fails hard (`assert len(missing_images) <
max_tolerable_missing_images` raises) instead of completing with a soft
warning. -/
theorem aggregation_missing_not_soft_counterexample :
    taskgroup_aggregation_check (fun _ => true) max_tolerable_missing_images
      ["f01", "f02", "f03", "f04", "f05", "f06", "f07", "f08", "f09", "f10",
       "f11", "f12", "f13", "f14", "f15", "f16", "f17", "f18", "f19", "f20"]
      [] = Except.error AggregationError.tooManyMissing := rfl

/-- C3 amended: at taskgroup aggregation, a missing-item count that reaches
or exceeds the tolerance threshold is a hard failure (the assertion raises
and the aggregation step does not complete); only a count strictly below the
threshold lets the step complete (with at most a printed warning). -/
theorem aggregation_missing_tolerance (fi : String → Bool) (tol : Nat)
    (requested : List String) (results : List Detection) :
    (tol ≤ (missing_images_of fi requested results).length →
      taskgroup_aggregation_check fi tol requested results =
        Except.error AggregationError.tooManyMissing) ∧
    ((missing_images_of fi requested results).length < tol →
      (∀ d ∈ results, d.file ∈ requested) →
      taskgroup_aggregation_check fi tol requested results =
        Except.ok (missing_images_of fi requested results)) := by
  constructor
  · intro htol
    unfold taskgroup_aggregation_check
    rw [if_neg (by omega)]
  · intro htol hsubset
    have hextra : ((results.map Detection.file).dedup.filter
        (fun x => decide (x ∉ requested))).length = 0 := by
      rw [List.length_eq_zero, List.filter_eq_nil_iff]
      intro x hx
      rcases List.mem_map.mp (List.mem_dedup.mp hx) with ⟨d, hd, rfl⟩
      simp [hsubset d hd]
    unfold taskgroup_aggregation_check
    rw [if_pos htol, if_pos hextra]

/-- C3 witness: below tolerance the step completes; at tolerance it raises. -/
theorem aggregation_missing_tolerance_witness :
    taskgroup_aggregation_check (fun _ => true) 1 ["a.jpg"] [] =
      Except.error AggregationError.tooManyMissing ∧
    taskgroup_aggregation_check (fun _ => true) 1 ["a.jpg"] [⟨"a.jpg"⟩] =
      Except.ok (missing_images_of (fun _ => true) ["a.jpg"] [⟨"a.jpg"⟩]) :=
  ⟨(aggregation_missing_tolerance (fun _ => true) 1 ["a.jpg"] []).1
      (by decide),
   (aggregation_missing_tolerance (fun _ => true) 1 ["a.jpg"] [⟨"a.jpg"⟩]).2
      (by decide) (by decide)⟩

/-- C4: if the combined result set contains any item never requested, the
aggregation step fails hard — with the `extra_images` assertion
(`AggregationInvariantViolation`) whenever control reaches it, i.e. when the
missing count is below tolerance — and aggregation succeeds only when the
result items are a subset of the requested items. -/
theorem aggregation_extra_images_fatal (fi : String → Bool) (tol : Nat)
    (requested : List String) (results : List Detection) :
    ((∃ d ∈ results, d.file ∉ requested) →
      ∃ e, taskgroup_aggregation_check fi tol requested results =
        Except.error e) ∧
    ((∃ d ∈ results, d.file ∉ requested) →
      (missing_images_of fi requested results).length < tol →
      taskgroup_aggregation_check fi tol requested results =
        Except.error AggregationError.extraImages) ∧
    (∀ m, taskgroup_aggregation_check fi tol requested results =
        Except.ok m → ∀ d ∈ results, d.file ∈ requested) := by
  refine ⟨?_, ?_, ?_⟩
  · intro hex
    unfold taskgroup_aggregation_check
    by_cases htol : (missing_images_of fi requested results).length < tol
    · rw [if_pos htol, if_neg (extra_images_nonempty hex)]
      exact ⟨_, rfl⟩
    · rw [if_neg htol]
      exact ⟨_, rfl⟩
  · intro hex htol
    unfold taskgroup_aggregation_check
    rw [if_pos htol, if_neg (extra_images_nonempty hex)]
  · intro m hm d hd
    by_contra hnot
    unfold taskgroup_aggregation_check at hm
    by_cases htol : (missing_images_of fi requested results).length < tol
    · rw [if_pos htol, if_neg (extra_images_nonempty ⟨d, hd, hnot⟩)] at hm
      exact absurd hm (by simp)
    · rw [if_neg htol] at hm
      exact absurd hm (by simp)

/-- C4 witness: a result item `b.jpg` that was never requested aborts the
aggregation with the extra-images assertion. -/
theorem aggregation_extra_images_fatal_witness :
    taskgroup_aggregation_check (fun _ => true) 20 ["a.jpg"] [⟨"b.jpg"⟩] =
      Except.error AggregationError.extraImages :=
  (aggregation_extra_images_fatal (fun _ => true) 20 ["a.jpg"]
    [⟨"b.jpg"⟩]).2.1 ⟨⟨"b.jpg"⟩, by decide, by decide⟩ (by decide)

/-- `pySliceBound` at a nonnegative (cast) index clamps to the length. -/
theorem pySliceBound_natCast (len i : Nat) :
    pySliceBound len (i : Int) = min i len := by
  unfold pySliceBound
  rw [if_neg (by omega), Int.toNat_natCast]

/-- Dropping/taking at clamped bounds agrees with the unclamped form. -/
theorem drop_take_clamp {α : Type} (l : List α) (a b : Nat) :
    (l.drop (min a l.length)).take (min b l.length - min a l.length) =
      (l.drop a).take (b - a) := by
  rcases Nat.le_total l.length a with ha | ha
  · rw [Nat.min_eq_right ha, List.drop_length, List.drop_eq_nil_of_le ha]
    simp
  · rw [Nat.min_eq_left ha]
    rcases Nat.le_total b l.length with hb | hb
    · rw [Nat.min_eq_left hb]
    · rw [Nat.min_eq_right hb,
        List.take_of_length_le (by rw [List.length_drop]),
        List.take_of_length_le (by rw [List.length_drop]; omega)]

/-- For a positive chunk size, the Python slice `l[i*n:(i+1)*n]` is
`(l.drop (i*n)).take n`. -/
theorem pySlice_chunk {α : Type} (l : List α) (N i : Nat) :
    pySlice l ((i : Int) * (N : Int)) (((i : Int) + 1) * (N : Int)) =
      (l.drop (i * N)).take N := by
  unfold pySlice
  have h1 : ((i : Int) * (N : Int)) = ((i * N : Nat) : Int) := by push_cast; ring
  have h2 : (((i : Int) + 1) * (N : Int)) = (((i + 1) * N : Nat) : Int) := by
    push_cast; ring
  rw [h1, h2, pySliceBound_natCast, pySliceBound_natCast, drop_take_clamp]
  congr 1
  rw [Nat.add_mul]
  omega

/-- Concatenating the first `k` chunks of size `N` recovers `l.take (k * N)`. -/
theorem flatten_range_chunks {α : Type} (l : List α) (N k : Nat) :
    ((List.range k).map (fun i => (l.drop (i * N)).take N)).flatten =
      l.take (k * N) := by
  induction k with
  | zero => simp
  | succ k ih =>
    rw [List.range_succ, List.map_append, List.flatten_append, ih]
    simp only [List.map_cons, List.map_nil, List.flatten_cons,
      List.flatten_nil, List.append_nil]
    rw [← List.take_add]
    congr 1
    rw [Nat.succ_mul]

/-- The ceiling chunk count covers the whole list: `len ≤ ⌈len/N⌉ * N`. -/
theorem ceil_mul_ge (len N : Nat) (hN : 0 < N) :
    len ≤ ((len + N - 1) / N) * N := by
  have h := Nat.div_add_mod (len + N - 1) N
  have h2 : (len + N - 1) % N < N := Nat.mod_lt _ hN
  rw [Nat.mul_comm]
  omega

/-- Every chunk before the last one is full. -/
theorem chunk_full_length {α : Type} (l : List α) (N i k : Nat)
    (hk : k = (l.length + N - 1) / N) (hik : i + 1 < k) :
    ((l.drop (i * N)).take N).length = N := by
  have h1 : k * N ≤ l.length + N - 1 := by
    rw [hk]; exact Nat.div_mul_le_self _ _
  have h2 : (i + 2) * N ≤ k * N := Nat.mul_le_mul_right _ (by omega)
  have h3 : (i + 2) * N = i * N + 2 * N := by ring
  rw [List.length_take, List.length_drop]
  omega

/-- For a positive chunk size, `divide_chunks` computes the `take`/`drop`
chunk list of length `⌈len/n⌉`. -/
theorem divide_chunks_pos {α : Type} (l : List α) (n : Nat) (hn : 0 < n) :
    divide_chunks l (n : Int) =
      some ((List.range ((l.length + n - 1) / n)).map
        (fun i => (l.drop (i * n)).take n)) := by
  unfold divide_chunks
  rw [if_neg (by exact_mod_cast hn.ne')]
  have hcast : ((l.length : Int) + (n : Int) - 1) =
      ((l.length + n - 1 : Nat) : Int) := by omega
  rw [hcast, ← Int.ofNat_fdiv, Int.toNat_natCast]
  congr 1
  exact List.map_congr_left (fun i _ => pySlice_chunk l n i)

/-- C1: for every list `l` and positive chunk size `n`, `divide_chunks`
returns chunks whose in-order concatenation is exactly `l` (no item dropped,
duplicated or reordered), each chunk of length `n` except possibly the last
(of length at most `n`), and the number of chunks is `⌈len(l)/n⌉ =
(len(l) + n - 1) / n`. -/
theorem divide_chunks_correct {α : Type} (l : List α) (n : Nat) (hn : 0 < n) :
    ∃ cs, divide_chunks l (n : Int) = some cs ∧
      cs.flatten = l ∧
      cs.length = (l.length + n - 1) / n ∧
      (∀ c ∈ cs, c.length ≤ n) ∧
      (∀ (i : Nat) (h : i < cs.length), i + 1 < cs.length →
        (cs.get ⟨i, h⟩).length = n) := by
  refine ⟨_, divide_chunks_pos l n hn, ?_, ?_, ?_, ?_⟩
  · rw [flatten_range_chunks]
    exact List.take_of_length_le (ceil_mul_ge l.length n hn)
  · simp
  · intro c hc
    rcases List.mem_map.mp hc with ⟨i, _, rfl⟩
    rw [List.length_take]
    exact min_le_left _ _
  · intro i h hlast
    simp only [List.length_map, List.length_range] at hlast
    simp only [List.get_eq_getElem, List.getElem_map, List.getElem_range]
    exact chunk_full_length l n i _ rfl hlast

/-- C1 witness: five items in chunks of two give `[[a,b],[c,d],[e]]`. -/
theorem divide_chunks_correct_witness :
    ∃ cs, divide_chunks ["a", "b", "c", "d", "e"] ((2 : Nat) : Int) =
        some cs ∧
      cs.flatten = ["a", "b", "c", "d", "e"] ∧
      cs.length = ((["a", "b", "c", "d", "e"] : List String).length + 2 - 1) / 2 ∧
      (∀ c ∈ cs, c.length ≤ 2) ∧
      (∀ (i : Nat) (h : i < cs.length), i + 1 < cs.length →
        (cs.get ⟨i, h⟩).length = 2) :=
  divide_chunks_correct ["a", "b", "c", "d", "e"] 2 (by decide)

end CameraTraps
